import Mathlib

/-!
Verification of the holder identity & connection session layer of
CryptLocker: password hashing (AuthService.hash_password /
verify_password), JWT session tokens (create_access_token /
verify_token / extract_user_from_token), invitation-URL parsing and
connection lifecycle (ConnectionService), and the pooled transactional
database layer (DatabaseService), shallowly embedded from
src/agents/holder.

Python strings that are immediately UTF-8 encoded (passwords, stored
hashes) are represented by their byte sequences as List Nat; UTF-8
encoding is injective, so distinctness of passwords coincides with
distinctness of their byte lists.
-/

namespace Holder

/-! ## bcrypt primitive (external library model) -/

/-- Modelled from the spec: the salted, adaptive one-way hash primitive
(bcrypt) used by AuthService, idealized as collision-free — the digest
determines the (72-byte-truncated) input together with the salt.  The
spec calls this an external "hash primitive" with a hard 72-byte input
limit; it is not part of the repository source. -/
structure BcryptRecord where
  cost : Nat
  salt : Nat
  digest : List Nat
deriving DecidableEq, Repr

/-- bcrypt internally only looks at the first 72 bytes of the password. -/
def bcryptTrunc (pw : List Nat) : List Nat := pw.take 72

/-- Idealized keyed digest: collision-free in the truncated password. -/
def bcryptDigest (pw : List Nat) (salt : Nat) : List Nat :=
  salt :: bcryptTrunc pw

def bcrypt_hashpw (pw : List Nat) (salt cost : Nat) : BcryptRecord :=
  ⟨cost, salt, bcryptDigest pw salt⟩

/-- Serialization of a bcrypt record to the stored-hash byte string.
The modular-crypt "$2b$..." format is abstracted as the marker bytes
36, 50, 98 (the characters of "$2b") followed by the record fields. -/
def encodeBcrypt (r : BcryptRecord) : List Nat :=
  36 :: 50 :: 98 :: r.cost :: r.salt :: r.digest

/-- Parsing a stored-hash byte string back into a bcrypt record; any
byte string not in the recognized format is malformed and makes
checkpw raise. -/
def parseBcrypt : List Nat → Option BcryptRecord
  | 36 :: 50 :: 98 :: c :: s :: d => some ⟨c, s, d⟩
  | _ => none

/-- bcrypt.checkpw: raises (models the Python ValueError "Invalid
salt") on a malformed or foreign-format stored hash, otherwise
compares the candidate digest with the stored digest. -/
def bcrypt_checkpw (pw : List Nat) (stored : List Nat) : Except String Bool :=
  match parseBcrypt stored with
  | none => .error "Invalid salt"
  | some r => .ok (decide (bcryptDigest pw r.salt = r.digest))

/-! ## AuthService.hash_password / verify_password
(src/agents/holder/services/auth_service.py, lines 26-67) -/

/-- The truncation both functions apply before calling bcrypt:
if len(password_bytes) > 72: password_bytes = password_bytes[:72]. -/
def codeTrunc (password : List Nat) : List Nat :=
  if password.length > 72 then password.take 72 else password

/-- AuthService.hash_password: truncate to 72 bytes, then
bcrypt.hashpw(password_bytes, bcrypt.gensalt(rounds)); the fresh
random salt and the configured cost are passed explicitly. -/
def hash_password (password : List Nat) (salt cost : Nat) : List Nat :=
  encodeBcrypt (bcrypt_hashpw (codeTrunc password) salt cost)

/-- The body of the try-block of AuthService.verify_password: truncate,
encode the stored hash, and call bcrypt.checkpw (which may raise). -/
def verify_password_body (plain_password hashed_password : List Nat) :
    Except String Bool :=
  bcrypt_checkpw (codeTrunc plain_password) hashed_password

/-- AuthService.verify_password: the try/except wrapper — any exception
from the body is logged and turned into False. -/
def verify_password (plain_password hashed_password : List Nat) : Bool :=
  match verify_password_body plain_password hashed_password with
  | .ok b => b
  | .error _ => false

/-! Helper lemmas about truncation. -/

theorem codeTrunc_take (p : List Nat) : (codeTrunc p).take 72 = p.take 72 := by
  unfold codeTrunc
  split
  · simp [List.take_take]
  · rfl

theorem bcryptDigest_codeTrunc (p : List Nat) (salt : Nat) :
    bcryptDigest (codeTrunc p) salt = salt :: p.take 72 := by
  simp [bcryptDigest, bcryptTrunc, codeTrunc_take]

theorem hash_password_eq (p : List Nat) (salt cost : Nat) :
    hash_password p salt cost =
      36 :: 50 :: 98 :: cost :: salt :: salt :: p.take 72 := by
  simp [hash_password, bcrypt_hashpw, encodeBcrypt, bcryptDigest_codeTrunc]

theorem verify_password_eq (p stored : List Nat) :
    verify_password p stored =
      match parseBcrypt stored with
      | none => false
      | some r => decide (r.salt :: p.take 72 = r.digest) := by
  unfold verify_password verify_password_body bcrypt_checkpw
  cases h : parseBcrypt stored with
  | none => simp [h]
  | some r => simp [h, bcryptDigest_codeTrunc]

/-- C1: the claim "for every password p of at most 72 UTF-8 bytes,
verify_password(p, hash_password(p)) is true, and for every p' ≠ p,
verify_password(p', hash_password(p)) is false" is refuted at a
concrete input: the 73-byte password consisting of 73 'a' bytes
verifies against the hash of the 72-byte password of 72 'a' bytes,
because both functions truncate to 72 bytes. -/
theorem c1_roundtrip_counterexample :
    ¬ (∀ p : List Nat, p.length ≤ 72 →
        (∀ salt cost, verify_password p (hash_password p salt cost) = true) ∧
        (∀ p' : List Nat, p' ≠ p →
          ∀ salt cost, verify_password p' (hash_password p salt cost) = false)) := by
  intro h
  exact absurd
    ((h (List.replicate 72 97) (by simp)).2 (List.replicate 73 97)
      (by decide) 0 12)
    (by decide)

/-- C1 (amended): for every password p of at most 72 UTF-8 bytes,
verify_password(p, hash_password(p)) returns true; and for every p'
whose first 72 bytes differ from the first 72 bytes of p,
verify_password(p', hash_password(p)) returns false. -/
theorem c1_roundtrip_amended (p : List Nat) (_hp : p.length ≤ 72) :
    (∀ salt cost, verify_password p (hash_password p salt cost) = true) ∧
    (∀ p' : List Nat, p'.take 72 ≠ p.take 72 →
      ∀ salt cost, verify_password p' (hash_password p salt cost) = false) := by
  constructor
  · intro salt cost
    rw [hash_password_eq, verify_password_eq]
    simp [parseBcrypt]
  · intro p' hne salt cost
    rw [hash_password_eq, verify_password_eq]
    simp [parseBcrypt]
    exact hne

/-- Witness for c1_roundtrip_amended at the one-byte password [97]. -/
theorem c1_roundtrip_amended_witness :
    verify_password [97] (hash_password [97] 5 12) = true ∧
    verify_password [98] (hash_password [97] 5 12) = false :=
  ⟨(c1_roundtrip_amended [97] (by decide)).1 5 12,
   (c1_roundtrip_amended [97] (by decide)).2 [98] (by decide) 5 12⟩

/-- C2: both hash_password and verify_password truncate the password
bytes to the first 72 bytes before invoking bcrypt, so any two
passwords agreeing on their first 72 bytes hash identically, verify
identically against any stored hash, and cross-verify: a password
verifies against the hash of any password sharing its 72-byte
front. -/
theorem c2_truncation (p q : List Nat) (h : p.take 72 = q.take 72) :
    (∀ salt cost, hash_password p salt cost = hash_password q salt cost) ∧
    (∀ stored, verify_password p stored = verify_password q stored) ∧
    (∀ salt cost, verify_password q (hash_password p salt cost) = true) := by
  refine ⟨fun salt cost => ?_, fun stored => ?_, fun salt cost => ?_⟩
  · rw [hash_password_eq, hash_password_eq, h]
  · rw [verify_password_eq, verify_password_eq, h]
  · rw [hash_password_eq, verify_password_eq]
    simp [parseBcrypt, h]

/-- Witness for c2_truncation: a 73-byte and an 80-byte password that
agree on their first 72 bytes hash identically and cross-verify. -/
theorem c2_truncation_witness :
    hash_password (List.replicate 73 97) 0 4 =
      hash_password (List.replicate 80 97) 0 4 ∧
    verify_password (List.replicate 80 97)
      (hash_password (List.replicate 73 97) 0 4) = true :=
  ⟨(c2_truncation (List.replicate 73 97) (List.replicate 80 97)
      (by decide)).1 0 4,
   (c2_truncation (List.replicate 73 97) (List.replicate 80 97)
      (by decide)).2.2 0 4⟩

/-- C8: verify_password is a total Boolean function (the try/except
wrapper converts every exception into a return value): a stored hash
that does not parse as a bcrypt hash yields false, and more generally
every execution of the body that raises yields false rather than
propagating. -/
theorem c8_verify_total (plain stored : List Nat) :
    (parseBcrypt stored = none → verify_password plain stored = false) ∧
    (∀ e, verify_password_body plain stored = .error e →
      verify_password plain stored = false) := by
  constructor
  · intro h
    rw [verify_password_eq, h]
  · intro e he
    unfold verify_password
    rw [he]

/-- Witness for c8_verify_total at the malformed stored hash [0]. -/
theorem c8_verify_total_witness :
    verify_password [97] [0] = false ∧ parseBcrypt [0] = none :=
  ⟨(c8_verify_total [97] [0]).1 (by decide), by decide⟩

/-! ## JWT session tokens
(src/agents/holder/services/auth_service.py, lines 70-139) -/

/-- The claim set placed in a session token by create_access_token:
user_id, username, exp (absolute expiry, seconds since epoch), iat. -/
structure JwtClaims where
  user_id : Nat
  username : String
  exp : Nat
  iat : Nat
deriving DecidableEq, Repr

/-- Modelled from the spec: the JWT library's HMAC signature, idealized
as an unforgeable MAC — a signature is identified with the pair of the
key and the claim set it was computed over. -/
structure JwtSig where
  key : String
  claims : JwtClaims
deriving DecidableEq, Repr

/-- A token string is either a well-formed signed token (three-part
compact encoding abstracted as claims plus signature) or an arbitrary
malformed string. -/
inductive JwtToken where
  | signed (claims : JwtClaims) (sig : JwtSig)
  | malformed (raw : String)
deriving DecidableEq, Repr

/-- jwt.encode: sign the claim set with the secret key. -/
def jwt_encode (claims : JwtClaims) (key : String) : JwtToken :=
  .signed claims ⟨key, claims⟩

/-- The two invalid sub-cases the JWT library distinguishes:
ExpiredSignatureError versus InvalidTokenError (bad format or bad
signature). -/
inductive JwtError where
  | expiredSignature
  | invalidToken (msg : String)
deriving DecidableEq, Repr

/-- Modelled from the spec: jwt.decode validates the signature (raising
InvalidTokenError on a malformed token or wrong signature) and then the
exp claim (raising ExpiredSignatureError when exp ≤ now). -/
def jwt_decode (token : JwtToken) (key : String) (now : Nat) :
    Except JwtError JwtClaims :=
  match token with
  | .malformed _ => .error (.invalidToken "Not enough segments")
  | .signed claims sig =>
    if sig = ⟨key, claims⟩ then
      if claims.exp ≤ now then .error .expiredSignature
      else .ok claims
    else .error (.invalidToken "Signature verification failed")

/-- AuthService.create_access_token: claims with
exp = now + expiration_hours (in seconds) and iat = now, signed with
the configured secret key. -/
def create_access_token (user_id : Nat) (username : String)
    (now expiration_hours : Nat) (key : String) : JwtToken :=
  jwt_encode ⟨user_id, username, now + expiration_hours * 3600, now⟩ key

/-- AuthService.verify_token: returns the decoded payload, or None on
either invalid sub-case; the two except branches are distinct in the
source (they log different diagnostics) but both return None. -/
def verify_token (token : JwtToken) (key : String) (now : Nat) :
    Option JwtClaims :=
  match jwt_decode token key now with
  | .ok payload => some payload
  | .error .expiredSignature => none
  | .error (.invalidToken _) => none

/-- AuthService.extract_user_from_token: strips the timestamp fields
from the verified payload. -/
def extract_user_from_token (token : JwtToken) (key : String) (now : Nat) :
    Option (Nat × String) :=
  match verify_token token key now with
  | some payload => some (payload.user_id, payload.username)
  | none => none

/-- C5: for a freshly created token, extract_user_from_token yields the
user identity while now < exp; once exp has elapsed, the decode step
reports the expired sub-case (ExpiredSignatureError), not the malformed
one, and verify_token collapses it to the same unauthenticated None
that a malformed token receives. -/
theorem c5_token_expiry (user_id : Nat) (username key : String)
    (now hours t : Nat) :
    (t < now + hours * 3600 →
      extract_user_from_token (create_access_token user_id username now hours key)
        key t = some (user_id, username)) ∧
    (now + hours * 3600 ≤ t →
      jwt_decode (create_access_token user_id username now hours key) key t =
        .error .expiredSignature ∧
      verify_token (create_access_token user_id username now hours key)
        key t = none) ∧
    (∀ raw, verify_token (.malformed raw) key t = none) := by
  refine ⟨fun hfresh => ?_, fun helapsed => ?_, fun raw => ?_⟩
  · simp [extract_user_from_token, verify_token, jwt_decode,
      create_access_token, jwt_encode, Nat.not_le.mpr hfresh]
  · constructor
    · simp [jwt_decode, create_access_token, jwt_encode, helapsed]
    · simp [verify_token, jwt_decode, create_access_token, jwt_encode,
        helapsed]
  · simp [verify_token, jwt_decode]

/-- Witness for c5_token_expiry: a token issued at time 0 with a
1-hour lifetime extracts its identity at time 10 and reports expired
at time 3600. -/
theorem c5_token_expiry_witness :
    extract_user_from_token (create_access_token 7 "alice" 0 1 "k") "k" 10 =
      some (7, "alice") ∧
    jwt_decode (create_access_token 7 "alice" 0 1 "k") "k" 3600 =
      .error .expiredSignature ∧
    verify_token (create_access_token 7 "alice" 0 1 "k") "k" 3600 = none :=
  ⟨(c5_token_expiry 7 "alice" "k" 0 1 10).1 (by decide),
   ((c5_token_expiry 7 "alice" "k" 0 1 3600).2.1 (by decide)).1,
   ((c5_token_expiry 7 "alice" "k" 0 1 3600).2.1 (by decide)).2⟩

/-! ## Base64 and JSON (stdlib models) and invitation-URL parsing
(src/agents/holder/services/connection_service.py, lines 174-209) -/

/-- Value of a character in the standard base64 alphabet, none for
characters outside it. -/
def b64Val (c : Char) : Option Nat :=
  if 'A' ≤ c ∧ c ≤ 'Z' then some (c.toNat - 65)
  else if 'a' ≤ c ∧ c ≤ 'z' then some (c.toNat - 97 + 26)
  else if '0' ≤ c ∧ c ≤ '9' then some (c.toNat - 48 + 52)
  else if c = '+' then some 62
  else if c = '/' then some 63
  else none

/-- Decode a base64 character stream four characters at a time, with
padding allowed only in the final quartet; a stream whose length is not
a multiple of four raises the padding error. -/
def b64Quanta : List Char → Except String (List Nat)
  | [] => .ok []
  | a :: b :: c :: d :: rest =>
    match b64Val a, b64Val b with
    | some va, some vb =>
      if c = '=' then
        if d = '=' ∧ rest = [] then .ok [va * 4 + vb / 16]
        else .error "Invalid base64-encoded string"
      else
        match b64Val c with
        | some vc =>
          if d = '=' then
            if rest = [] then
              .ok [va * 4 + vb / 16, (vb % 16) * 16 + vc / 4]
            else .error "Invalid base64-encoded string"
          else
            match b64Val d with
            | some vd =>
              match b64Quanta rest with
              | .ok bytes =>
                .ok ([va * 4 + vb / 16, (vb % 16) * 16 + vc / 4,
                      (vc % 4) * 64 + vd] ++ bytes)
              | .error e => .error e
            | none => .error "Invalid base64-encoded string"
        | none => .error "Invalid base64-encoded string"
    | _, _ => .error "Invalid base64-encoded string"
  | _ => .error "Invalid padding"

/-- Modelled from the spec: stdlib base64.b64decode with its default
leniency — characters outside the alphabet are discarded before
decoding, and incorrect padding raises. -/
def b64decode (s : String) : Except String (List Nat) :=
  b64Quanta (s.toList.filter (fun c => (b64Val c).isSome || c == '='))

/-- JSON values as decoded by json.loads. -/
inductive Json where
  | null
  | bool (b : Bool)
  | num (n : Nat)
  | str (s : String)
  | arr (elems : List Json)
  | obj (members : List (String × Json))

/-- Skip JSON insignificant whitespace. -/
def skipWs : List Char → List Char
  | [] => []
  | c :: rest =>
    if c = ' ' ∨ c = '\n' ∨ c = '\t' ∨ c = '\r' then skipWs rest
    else c :: rest

/-- Read the remainder of a JSON string literal up to the closing
quote (escape sequences are outside the modelled fragment). -/
def jsonStringRest : List Char → Except String (String × List Char)
  | [] => .error "Unterminated string"
  | c :: rest =>
    if c = '"' then .ok ("", rest)
    else if c = '\\' then .error "Unsupported escape"
    else
      match jsonStringRest rest with
      | .ok (s, rem) => .ok (String.mk (c :: s.toList), rem)
      | .error e => .error e

/-- Read a maximal run of decimal digits. -/
def jsonDigits : List Char → (List Nat × List Char)
  | [] => ([], [])
  | c :: rest =>
    if '0' ≤ c ∧ c ≤ '9' then
      let (ds, rem) := jsonDigits rest
      ((c.toNat - 48) :: ds, rem)
    else ([], c :: rest)

def digitsVal (ds : List Nat) : Nat := ds.foldl (fun a d => a * 10 + d) 0

mutual

/-- Modelled from the spec: the recursive-descent core of stdlib
json.loads, on the fragment null / booleans / natural-number literals /
escape-free strings / arrays / objects, with recursion depth bounded by
fuel. -/
def jsonVal : Nat → List Char → Except String (Json × List Char)
  | 0, _ => .error "Too deeply nested"
  | fuel + 1, cs =>
    match skipWs cs with
    | [] => .error "Expecting value"
    | c :: rest =>
      if c = 'n' then
        match rest with
        | 'u' :: 'l' :: 'l' :: rem => .ok (.null, rem)
        | _ => .error "Expecting value"
      else if c = 't' then
        match rest with
        | 'r' :: 'u' :: 'e' :: rem => .ok (.bool true, rem)
        | _ => .error "Expecting value"
      else if c = 'f' then
        match rest with
        | 'a' :: 'l' :: 's' :: 'e' :: rem => .ok (.bool false, rem)
        | _ => .error "Expecting value"
      else if c = '"' then
        match jsonStringRest rest with
        | .ok (s, rem) => .ok (.str s, rem)
        | .error e => .error e
      else if '0' ≤ c ∧ c ≤ '9' then
        let (ds, rem) := jsonDigits (c :: rest)
        .ok (.num (digitsVal ds), rem)
      else if c = '[' then
        match skipWs rest with
        | ']' :: rem => .ok (.arr [], rem)
        | cs2 =>
          match jsonArrItems fuel cs2 with
          | .ok (xs, rem) => .ok (.arr xs, rem)
          | .error e => .error e
      else if c.toNat = 123 then
        match skipWs rest with
        | [] => .error "Unterminated object"
        | c2 :: rem =>
          if c2.toNat = 125 then .ok (.obj [], rem)
          else
            match jsonObjItems fuel (c2 :: rem) with
            | .ok (ms, rem2) => .ok (.obj ms, rem2)
            | .error e => .error e
      else .error "Expecting value"

/-- Comma-separated array elements up to the closing bracket. -/
def jsonArrItems : Nat → List Char → Except String (List Json × List Char)
  | 0, _ => .error "Too deeply nested"
  | fuel + 1, cs =>
    match jsonVal fuel cs with
    | .error e => .error e
    | .ok (v, rem) =>
      match skipWs rem with
      | ',' :: rem2 =>
        match jsonArrItems fuel rem2 with
        | .ok (xs, rem3) => .ok (v :: xs, rem3)
        | .error e => .error e
      | ']' :: rem2 => .ok ([v], rem2)
      | _ => .error "Expecting comma or end of array"

/-- Comma-separated object members up to the closing brace. -/
def jsonObjItems : Nat → List Char →
    Except String (List (String × Json) × List Char)
  | 0, _ => .error "Too deeply nested"
  | fuel + 1, cs =>
    match skipWs cs with
    | '"' :: rest =>
      match jsonStringRest rest with
      | .error e => .error e
      | .ok (k, rem) =>
        match skipWs rem with
        | ':' :: rem2 =>
          match jsonVal fuel rem2 with
          | .error e => .error e
          | .ok (v, rem3) =>
            match skipWs rem3 with
            | [] => .error "Unterminated object"
            | ',' :: rem4 =>
              match jsonObjItems fuel rem4 with
              | .ok (ms, rem5) => .ok ((k, v) :: ms, rem5)
              | .error e => .error e
            | c :: rem4 =>
              if c.toNat = 125 then .ok ([(k, v)], rem4)
              else .error "Expecting comma or end of object"
        | _ => .error "Expecting colon"
    | _ => .error "Expecting property name"

end

/-- Modelled from the spec: stdlib json.loads on a byte string —
decode bytes to characters, parse one JSON value, and require that
only whitespace remains. -/
def jsonLoads (bs : List Nat) : Except String Json :=
  match jsonVal (bs.length + 1) (bs.map Char.ofNat) with
  | .error e => .error e
  | .ok (v, rem) =>
    match skipWs rem with
    | [] => .ok v
    | _ => .error "Extra data"

/-- Modelled from the spec: the stdlib urlparse + parse_qs pipeline is
abstracted away — an invitation URL is represented by its parsed
query-string multimap exactly as parse_qs returns it (parse_qs never
produces an empty value list for a present key). -/
abbrev QueryParams := List (String × List String)

/-- Membership-and-index access on the parse_qs result:
query_params[k] as an optional value list. -/
def qlookup (q : QueryParams) (k : String) : Option (List String) :=
  (q.find? (fun p => p.1 == k)).map (fun p => p.2)

/-- ConnectionService._parse_invitation_url: take the first value of
the c_i parameter if present, else of the oob parameter, base64-decode
it and parse the result as JSON; raise ValueError("Invalid invitation
URL format") when neither parameter is present.  All raised exceptions
propagate (the except block logs and re-raises). -/
def parse_invitation_url (query_params : QueryParams) :
    Except String Json :=
  match qlookup query_params "c_i" with
  | some (encoded :: _) =>
    (match b64decode encoded with
     | .ok decoded => jsonLoads decoded
     | .error e => .error e)
  | some [] => .error "list index out of range"
  | none =>
    match qlookup query_params "oob" with
    | some (encoded :: _) =>
      (match b64decode encoded with
       | .ok decoded => jsonLoads decoded
       | .error e => .error e)
    | some [] => .error "list index out of range"
    | none => .error "Invalid invitation URL format"

/-- C4: given a query string carrying c_i with base64-encoded JSON,
parse_invitation_url returns the decoded JSON object; the same holds
for oob; and it fails with a parse error when neither parameter is
present, when base64 decoding fails, or when the decoded bytes are not
valid JSON. -/
theorem c4_parse_invitation (q : QueryParams) :
    (∀ v rest bs j, qlookup q "c_i" = some (v :: rest) →
      b64decode v = .ok bs → jsonLoads bs = .ok j →
      parse_invitation_url q = .ok j) ∧
    (∀ v rest bs j, qlookup q "c_i" = none →
      qlookup q "oob" = some (v :: rest) →
      b64decode v = .ok bs → jsonLoads bs = .ok j →
      parse_invitation_url q = .ok j) ∧
    (qlookup q "c_i" = none → qlookup q "oob" = none →
      parse_invitation_url q = .error "Invalid invitation URL format") ∧
    (∀ v rest e, qlookup q "c_i" = some (v :: rest) →
      b64decode v = .error e → parse_invitation_url q = .error e) ∧
    (∀ v rest bs e, qlookup q "c_i" = some (v :: rest) →
      b64decode v = .ok bs → jsonLoads bs = .error e →
      parse_invitation_url q = .error e) := by
  refine ⟨?_, ?_, ?_, ?_, ?_⟩
  · intro v rest bs j h1 h2 h3
    simp [parse_invitation_url, h1, h2, h3]
  · intro v rest bs j h1 h2 h3 h4
    simp [parse_invitation_url, h1, h2, h3, h4]
  · intro h1 h2
    simp [parse_invitation_url, h1, h2]
  · intro v rest e h1 h2
    simp [parse_invitation_url, h1, h2]
  · intro v rest bs e h1 h2 h3
    simp [parse_invitation_url, h1, h2, h3]

/-- Witness for c4_parse_invitation: a c_i and an oob invitation whose
parameter is the base64 encoding of the JSON text of the empty object
both decode to that object; a query with neither parameter, one whose
parameter is not valid base64, and one whose parameter decodes to
non-JSON bytes all yield errors. -/
theorem c4_parse_invitation_witness :
    parse_invitation_url [("c_i", ["e30="])] = .ok (Json.obj []) ∧
    parse_invitation_url [("oob", ["e30="])] = .ok (Json.obj []) ∧
    parse_invitation_url [("x", ["y"])] =
      .error "Invalid invitation URL format" ∧
    parse_invitation_url [("c_i", ["a"])] = .error "Invalid padding" ∧
    parse_invitation_url [("c_i", ["YQ=="])] = .error "Expecting value" :=
  ⟨(c4_parse_invitation [("c_i", ["e30="])]).1 "e30=" [] [123, 125]
      (Json.obj []) rfl rfl rfl,
   (c4_parse_invitation [("oob", ["e30="])]).2.1 "e30=" [] [123, 125]
      (Json.obj []) rfl rfl rfl rfl,
   (c4_parse_invitation [("x", ["y"])]).2.2.1 rfl rfl,
   (c4_parse_invitation [("c_i", ["a"])]).2.2.2.1 "a" []
      "Invalid padding" rfl rfl,
   (c4_parse_invitation [("c_i", ["YQ=="])]).2.2.2.2 "YQ==" [] [97]
      "Expecting value" rfl rfl rfl⟩

/-! ## ConnectionService lifecycle operations
(src/agents/holder/services/connection_service.py, lines 29-172).
Each operation is one HTTP round-trip to the collaborator; the
collaborator's behavior is represented by the outcome of that
round-trip: a response with a status code, JSON body and error text,
or a raised client exception (network failure). -/

/-- Outcome of the single HTTP call an operation makes. -/
inductive HttpResult where
  | response (status : Nat) (body : Json) (text : String)
  | failure (msg : String)

/-- The result.get("results", []) access used by list_connections: the
results member of the body when it is an array, else the empty
default. -/
def getResults (body : Json) : List Json :=
  match body with
  | .obj members =>
    match members.find? (fun m => m.1 == "results") with
    | some (_, .arr xs) => xs
    | _ => []
  | _ => []

/-- ConnectionService.list_connections: results if response.status ==
200, the empty list otherwise, and the empty list when the call
raises. -/
def list_connections (resp : HttpResult) : List Json :=
  match resp with
  | .response status body _ =>
    if status = 200 then getResults body else []
  | .failure _ => []

/-- ConnectionService.get_connection: the body if response.status ==
200, None otherwise, and None when the call raises. -/
def get_connection (resp : HttpResult) : Option Json :=
  match resp with
  | .response status body _ =>
    if status = 200 then some body else none
  | .failure _ => none

/-- ConnectionService.delete_connection: True exactly if
response.status == 200; False otherwise and when the call raises. -/
def delete_connection (resp : HttpResult) : Bool :=
  match resp with
  | .response status _ _ => if status = 200 then true else false
  | .failure _ => false

/-- ConnectionService.accept_invitation: the body if response.status ==
200; otherwise raises Exception("Failed to accept invitation: " +
error_text); a raised client exception is logged and re-raised. -/
def accept_invitation (resp : HttpResult) : Except String Json :=
  match resp with
  | .response status body text =>
    if status = 200 then .ok body
    else .error ("Failed to accept invitation: " ++ text)
  | .failure msg => .error msg

/-- ConnectionService.receive_invitation: parse the invitation URL
(any parse exception propagates), post it to the collaborator, return
the body if response.status == 200, and raise Exception("Invitation
receive failed: " + error_text) otherwise; a raised client exception
is logged and re-raised. -/
def receive_invitation (query_params : QueryParams) (resp : HttpResult) :
    Except String Json :=
  match parse_invitation_url query_params with
  | .error e => .error e
  | .ok _ =>
    match resp with
    | .response status body text =>
      if status = 200 then .ok body
      else .error ("Invitation receive failed: " ++ text)
    | .failure msg => .error msg

/-- C6: reads degrade while writes raise — on a non-200 status or a
raised client exception, list_connections returns the empty list,
get_connection returns None and delete_connection returns False,
whereas accept_invitation and receive_invitation turn the same
conditions into raised exceptions that propagate to the caller. -/
theorem c6_read_degrade_write_raise (status : Nat) (body : Json)
    (text msg : String) (q : QueryParams) (hstatus : status ≠ 200) :
    (list_connections (.response status body text) = [] ∧
      list_connections (.failure msg) = []) ∧
    (get_connection (.response status body text) = none ∧
      get_connection (.failure msg) = none) ∧
    (delete_connection (.response status body text) = false ∧
      delete_connection (.failure msg) = false) ∧
    (accept_invitation (.response status body text) =
        .error ("Failed to accept invitation: " ++ text) ∧
      accept_invitation (.failure msg) = .error msg) ∧
    (∀ j, parse_invitation_url q = .ok j →
      receive_invitation q (.response status body text) =
        .error ("Invitation receive failed: " ++ text) ∧
      receive_invitation q (.failure msg) = .error msg) := by
  refine ⟨⟨?_, rfl⟩, ⟨?_, rfl⟩, ⟨?_, rfl⟩, ⟨?_, rfl⟩, fun j hq => ⟨?_, ?_⟩⟩
  · simp [list_connections, hstatus]
  · simp [get_connection, hstatus]
  · simp [delete_connection, hstatus]
  · simp [accept_invitation, hstatus]
  · simp [receive_invitation, hq, hstatus]
  · simp [receive_invitation, hq]

/-- Witness for c6_read_degrade_write_raise at a 500 response with
error text "boom" and a raised client error "down". -/
theorem c6_read_degrade_write_raise_witness :
    list_connections (.response 500 Json.null "boom") = [] ∧
    get_connection (.response 500 Json.null "boom") = none ∧
    delete_connection (.response 500 Json.null "boom") = false ∧
    accept_invitation (.failure "down") = .error "down" ∧
    receive_invitation [("c_i", ["e30="])] (.response 500 Json.null "boom") =
      .error ("Invitation receive failed: " ++ "boom") :=
  ⟨(c6_read_degrade_write_raise 500 Json.null "boom" "down"
      [("c_i", ["e30="])] (by decide)).1.1,
   (c6_read_degrade_write_raise 500 Json.null "boom" "down"
      [("c_i", ["e30="])] (by decide)).2.1.1,
   (c6_read_degrade_write_raise 500 Json.null "boom" "down"
      [("c_i", ["e30="])] (by decide)).2.2.1.1,
   (c6_read_degrade_write_raise 500 Json.null "boom" "down"
      [("c_i", ["e30="])] (by decide)).2.2.2.1.2,
   ((c6_read_degrade_write_raise 500 Json.null "boom" "down"
      [("c_i", ["e30="])] (by decide)).2.2.2.2 (Json.obj []) rfl).1⟩

/-! ## DatabaseService: pooled transactional store
(src/agents/holder/services/database_service.py) -/

/-- A row of the users table (persisted row shape from the spec's
external-interfaces section); timestamps are store-assigned. -/
structure UserRow where
  id : Nat
  username : String
  email : String
  hashed_password : List Nat
  full_name : Option String
  did : Option String
  wallet_id : String
  is_active : Bool
  created_at : Nat
  updated_at : Nat
deriving DecidableEq, Repr

/-- The visible (committed) database state. -/
structure UsersDb where
  rows : List UserRow
  next_id : Nat
deriving DecidableEq, Repr

/-- Errors a statement execution can raise: psycopg2.IntegrityError on
a constraint violation, or any other exception. -/
inductive SqlError where
  | integrity (msg : String)
  | other (msg : String)
deriving DecidableEq, Repr

/-- pool.getconn: take one connection from the pool of available
connections (the claims under verification concern operations whose
acquisition succeeds, so the exhausted case surfaces as an error). -/
def getconn (pool : Nat) : Option Nat :=
  if pool = 0 then none else some (pool - 1)

/-- pool.putconn: return a connection to the pool. -/
def putconn (pool : Nat) : Nat := pool + 1

/-- Outcome of one pool-scoped operation: the operation's result, the
committed database state afterwards, and the pool afterwards. -/
structure ConnResult (α : Type) where
  result : Except SqlError α
  db : UsersDb
  pool : Nat
deriving Repr

/-- DatabaseService.get_connection, the contextmanager: acquire a
connection from the pool, run the body against a working transaction
view, commit its effects on normal return, roll them back (leaving the
committed state unchanged) when the body raises and re-raise, and in
either case return the connection to the pool in the finally block. -/
def get_connection_scope {α : Type} (pool : Nat) (db : UsersDb)
    (body : UsersDb → Except SqlError (α × UsersDb)) : ConnResult α :=
  match getconn pool with
  | none => ⟨.error (.other "connection pool exhausted"), db, pool⟩
  | some p =>
    match body db with
    | .ok (a, db2) => ⟨.ok a, db2, putconn p⟩
    | .error e => ⟨.error e, db, putconn p⟩

/-- Normal return of a pool-scoped operation: commit and release. -/
theorem get_connection_scope_of_ok {α : Type} (pool : Nat) (db : UsersDb)
    (body : UsersDb → Except SqlError (α × UsersDb)) (hpool : 0 < pool)
    (a : α) (db2 : UsersDb) (hb : body db = .ok (a, db2)) :
    get_connection_scope pool db body = ⟨.ok a, db2, pool⟩ := by
  unfold get_connection_scope getconn
  rw [if_neg (Nat.pos_iff_ne_zero.mp hpool), hb]
  simp [putconn]
  omega

/-- Raising body of a pool-scoped operation: rollback and release. -/
theorem get_connection_scope_of_error {α : Type} (pool : Nat) (db : UsersDb)
    (body : UsersDb → Except SqlError (α × UsersDb)) (hpool : 0 < pool)
    (e : SqlError) (hb : body db = .error e) :
    get_connection_scope pool db body = ⟨.error e, db, pool⟩ := by
  unfold get_connection_scope getconn
  rw [if_neg (Nat.pos_iff_ne_zero.mp hpool), hb]
  simp [putconn]
  omega

/-- C3: a pool-scoped Store operation returns its connection to the
pool on every exit path (the pool is unchanged afterwards), leaves
zero visible row changes when the body raises (rollback), and installs
exactly the body's final state when it returns normally (commit). -/
theorem c3_scoped_connection {α : Type} (pool : Nat) (db : UsersDb)
    (body : UsersDb → Except SqlError (α × UsersDb)) (hpool : 0 < pool) :
    (get_connection_scope pool db body).pool = pool ∧
    (∀ e, (get_connection_scope pool db body).result = .error e →
      (get_connection_scope pool db body).db = db) ∧
    (∀ a db2, body db = .ok (a, db2) →
      get_connection_scope pool db body = ⟨.ok a, db2, pool⟩) := by
  refine ⟨?_, fun e he => ?_,
    fun a db2 hb => get_connection_scope_of_ok pool db body hpool a db2 hb⟩
  · cases hb : body db with
    | ok x =>
      cases x with
      | mk a db2 =>
        rw [get_connection_scope_of_ok pool db body hpool a db2 hb]
    | error e =>
      rw [get_connection_scope_of_error pool db body hpool e hb]
  · cases hb : body db with
    | ok x =>
      cases x with
      | mk a db2 =>
        rw [get_connection_scope_of_ok pool db body hpool a db2 hb] at he
        simp at he
    | error e2 =>
      rw [get_connection_scope_of_error pool db body hpool e2 hb]

/-- Witness for c3_scoped_connection: with a pool of 10 connections
and an empty database, a body that raises an integrity error leaves
the database unchanged and the pool full. -/
theorem c3_scoped_connection_witness :
    (get_connection_scope 10 ⟨[], 1⟩
      (fun _ => (.error (.integrity "dup") :
        Except SqlError (Unit × UsersDb)))).pool = 10 ∧
    (get_connection_scope 10 ⟨[], 1⟩
      (fun _ => (.error (.integrity "dup") :
        Except SqlError (Unit × UsersDb)))).db = ⟨[], 1⟩ :=
  ⟨(c3_scoped_connection 10 ⟨[], 1⟩ _ (by decide)).1,
   (c3_scoped_connection 10 ⟨[], 1⟩ _ (by decide)).2.1
     (.integrity "dup") rfl⟩

/-- Modelled from the spec: the users table carries UNIQUE constraints
on username and email (the table DDL is not under src/); the INSERT
statement raises psycopg2.IntegrityError when either constraint is
violated, and otherwise appends the new row with a store-assigned id
and CURRENT_TIMESTAMP timestamps. -/
def insertUserStmt (username email : String) (hashed_password : List Nat)
    (full_name did : Option String) (wallet_name : String) (now : Nat)
    (db : UsersDb) : Except SqlError (UserRow × UsersDb) :=
  if db.rows.any (fun r => r.username == username || r.email == email) then
    .error (.integrity "duplicate key value violates unique constraint")
  else
    let row : UserRow :=
      ⟨db.next_id, username, email, hashed_password, full_name, did,
        wallet_name, true, now, now⟩
    .ok (row, ⟨db.rows ++ [row], db.next_id + 1⟩)

/-- The errors DatabaseService.create_user can raise: the ValueError
it substitutes for an IntegrityError (the duplicate case), or any
other exception re-raised as is. -/
inductive CreateUserError where
  | valueError (msg : String)
  | genericError (msg : String)
deriving DecidableEq, Repr

structure CreateUserResult where
  result : Except CreateUserError UserRow
  db : UsersDb
  pool : Nat
deriving Repr

/-- DatabaseService.create_user: run the INSERT inside the pooled
scope; an IntegrityError is caught and replaced by
ValueError("Username or email already exists"), every other exception
is re-raised unchanged. -/
def create_user (pool : Nat) (db : UsersDb) (username email : String)
    (hashed_password : List Nat) (full_name did : Option String)
    (wallet_name : String) (now : Nat) : CreateUserResult :=
  let r := get_connection_scope pool db
    (insertUserStmt username email hashed_password full_name did
      wallet_name now)
  match r.result with
  | .ok user => ⟨.ok user, r.db, r.pool⟩
  | .error (.integrity _) =>
    ⟨.error (.valueError "Username or email already exists"), r.db, r.pool⟩
  | .error (.other m) => ⟨.error (.genericError m), r.db, r.pool⟩

/-- The INSERT succeeds when no row collides on username or email. -/
theorem insertUserStmt_of_free (db : UsersDb) (u e : String)
    (hpw : List Nat) (fn did : Option String) (w : String) (now : Nat)
    (hfree : db.rows.any (fun r => r.username == u || r.email == e) = false) :
    insertUserStmt u e hpw fn did w now db =
      .ok (⟨db.next_id, u, e, hpw, fn, did, w, true, now, now⟩,
        ⟨db.rows ++ [⟨db.next_id, u, e, hpw, fn, did, w, true, now, now⟩],
          db.next_id + 1⟩) := by
  unfold insertUserStmt
  rw [hfree]
  rfl

/-- The INSERT raises IntegrityError on a username or email collision. -/
theorem insertUserStmt_of_dup (db : UsersDb) (u e : String)
    (hpw : List Nat) (fn did : Option String) (w : String) (now : Nat)
    (hdup : db.rows.any (fun r => r.username == u || r.email == e) = true) :
    insertUserStmt u e hpw fn did w now db =
      .error (.integrity "duplicate key value violates unique constraint") := by
  unfold insertUserStmt
  rw [hdup]
  rfl

/-- Successful insertion when no row collides on username or email. -/
theorem create_user_of_free (pool : Nat) (db : UsersDb) (u e : String)
    (hpw : List Nat) (fn did : Option String) (w : String) (now : Nat)
    (hpool : 0 < pool)
    (hfree : db.rows.any (fun r => r.username == u || r.email == e) = false) :
    create_user pool db u e hpw fn did w now =
      ⟨.ok ⟨db.next_id, u, e, hpw, fn, did, w, true, now, now⟩,
        ⟨db.rows ++ [⟨db.next_id, u, e, hpw, fn, did, w, true, now, now⟩],
          db.next_id + 1⟩, pool⟩ := by
  unfold create_user
  rw [get_connection_scope_of_ok pool db _ hpool
    ⟨db.next_id, u, e, hpw, fn, did, w, true, now, now⟩
    ⟨db.rows ++ [⟨db.next_id, u, e, hpw, fn, did, w, true, now, now⟩],
      db.next_id + 1⟩
    (insertUserStmt_of_free db u e hpw fn did w now hfree)]

/-- Duplicate insertion when some row collides on username or email. -/
theorem create_user_of_dup (pool : Nat) (db : UsersDb) (u e : String)
    (hpw : List Nat) (fn did : Option String) (w : String) (now : Nat)
    (hpool : 0 < pool)
    (hdup : db.rows.any (fun r => r.username == u || r.email == e) = true) :
    create_user pool db u e hpw fn did w now =
      ⟨.error (.valueError "Username or email already exists"), db, pool⟩ := by
  unfold create_user
  rw [get_connection_scope_of_error pool db _ hpool
    (.integrity "duplicate key value violates unique constraint")
    (insertUserStmt_of_dup db u e hpw fn did w now hdup)]

/-- C7: create_user fails with the duplicate error — distinct from a
generic failure — exactly on a username or email collision: after a
successful create_user with username u and email e, a second
create_user with the same username (any email) and one with a
different username but the same email both yield
ValueError("Username or email already exists"), leaving the store
unchanged. -/
theorem c7_duplicate_user (pool pool2 pool3 : Nat) (db : UsersDb)
    (u e u2 e2 : String) (hpw : List Nat) (fn did : Option String)
    (w : String) (now now2 : Nat)
    (hpool : 0 < pool) (hpool2 : 0 < pool2) (hpool3 : 0 < pool3)
    (hfree : db.rows.any (fun r => r.username == u || r.email == e) = false)
    (_hu2 : u2 ≠ u) :
    (create_user pool db u e hpw fn did w now).result =
      .ok ⟨db.next_id, u, e, hpw, fn, did, w, true, now, now⟩ ∧
    (create_user pool2 (create_user pool db u e hpw fn did w now).db
        u e2 hpw fn did w now2).result =
      .error (.valueError "Username or email already exists") ∧
    (create_user pool3 (create_user pool db u e hpw fn did w now).db
        u2 e hpw fn did w now2).result =
      .error (.valueError "Username or email already exists") := by
  rw [create_user_of_free pool db u e hpw fn did w now hpool hfree]
  refine ⟨rfl, ?_, ?_⟩
  · rw [create_user_of_dup pool2 _ u e2 hpw fn did w now2 hpool2 (by simp)]
  · rw [create_user_of_dup pool3 _ u2 e hpw fn did w now2 hpool3 (by simp)]

/-- Witness for c7_duplicate_user: create alice/alice@x.com in an
empty store, then the same username with another email and another
username with the same email both report the duplicate error. -/
theorem c7_duplicate_user_witness :
    (create_user 10 ⟨[], 1⟩ "alice" "alice@x.com" [1] none none "w" 0).result
      = .ok ⟨1, "alice", "alice@x.com", [1], none, none, "w", true, 0, 0⟩ ∧
    (create_user 10 (create_user 10 ⟨[], 1⟩ "alice" "alice@x.com" [1]
        none none "w" 0).db "alice" "bob@x.com" [1] none none "w" 1).result
      = .error (.valueError "Username or email already exists") ∧
    (create_user 10 (create_user 10 ⟨[], 1⟩ "alice" "alice@x.com" [1]
        none none "w" 0).db "bob" "alice@x.com" [1] none none "w" 1).result
      = .error (.valueError "Username or email already exists") :=
  c7_duplicate_user 10 10 10 ⟨[], 1⟩ "alice" "alice@x.com" "bob" "bob@x.com"
    [1] none none "w" 0 1 (by decide) (by decide) (by decide) rfl
    (by decide)

/-- The UPDATE users SET did = ..., updated_at = CURRENT_TIMESTAMP
WHERE id = ... statement: rewrites every matching row; execution
succeeds regardless of how many rows matched, and the function then
returns True without consulting the cursor's row count. -/
def updateUserDidStmt (user_id : Nat) (did : String) (now : Nat)
    (db : UsersDb) : Except SqlError (Bool × UsersDb) :=
  .ok (true,
    ⟨db.rows.map (fun r =>
        if r.id = user_id then { r with did := some did, updated_at := now }
        else r),
      db.next_id⟩)

/-- DatabaseService.update_user_did. -/
def update_user_did (pool : Nat) (db : UsersDb) (user_id : Nat)
    (did : String) (now : Nat) : ConnResult Bool :=
  get_connection_scope pool db (updateUserDidStmt user_id did now)

/-- The UPDATE users SET hashed_password = ... WHERE id = ...
statement, same discipline as updateUserDidStmt. -/
def updateUserPasswordStmt (user_id : Nat) (hashed_password : List Nat)
    (now : Nat) (db : UsersDb) : Except SqlError (Bool × UsersDb) :=
  .ok (true,
    ⟨db.rows.map (fun r =>
        if r.id = user_id then
          { r with hashed_password := hashed_password, updated_at := now }
        else r),
      db.next_id⟩)

/-- DatabaseService.update_user_password. -/
def update_user_password (pool : Nat) (db : UsersDb) (user_id : Nat)
    (hashed_password : List Nat) (now : Nat) : ConnResult Bool :=
  get_connection_scope pool db
    (updateUserPasswordStmt user_id hashed_password now)

/-- The DELETE FROM users WHERE id = ... statement: removes every
matching row and succeeds regardless of how many matched. -/
def deleteUserStmt (user_id : Nat) (db : UsersDb) :
    Except SqlError (Bool × UsersDb) :=
  .ok (true, ⟨db.rows.filter (fun r => r.id != user_id), db.next_id⟩)

/-- DatabaseService.delete_user. -/
def delete_user (pool : Nat) (db : UsersDb) (user_id : Nat) :
    ConnResult Bool :=
  get_connection_scope pool db (deleteUserStmt user_id)

/-- Rows untouched by an UPDATE whose WHERE clause matches nothing. -/
theorem map_untouched_of_absent {l : List UserRow} {uid : Nat}
    (f : UserRow → UserRow) (h : ∀ r ∈ l, r.id ≠ uid) :
    l.map (fun r => if r.id = uid then f r else r) = l := by
  induction l with
  | nil => rfl
  | cons a t ih =>
    simp only [List.map_cons, if_neg (h a (List.mem_cons_self a t))]
    rw [ih (fun r hr => h r (List.mem_cons_of_mem a hr))]

/-- C10: update_user_did, update_user_password and delete_user return
True whenever their statement executes without raising, even when no
row with the given id exists — the store is left unchanged and the
result still reports success, because the boolean reflects statement
execution, not rows affected. -/
theorem c10_update_reports_statement_success (pool : Nat) (db : UsersDb)
    (user_id : Nat) (did : String) (hpw : List Nat) (now : Nat)
    (hpool : 0 < pool) (habsent : ∀ r ∈ db.rows, r.id ≠ user_id) :
    update_user_did pool db user_id did now = ⟨.ok true, db, pool⟩ ∧
    update_user_password pool db user_id hpw now = ⟨.ok true, db, pool⟩ ∧
    delete_user pool db user_id = ⟨.ok true, db, pool⟩ := by
  refine ⟨?_, ?_, ?_⟩
  · unfold update_user_did
    rw [get_connection_scope_of_ok pool db _ hpool true db
      (by unfold updateUserDidStmt
          rw [map_untouched_of_absent _ habsent])]
  · unfold update_user_password
    rw [get_connection_scope_of_ok pool db _ hpool true db
      (by unfold updateUserPasswordStmt
          rw [map_untouched_of_absent _ habsent])]
  · unfold delete_user
    rw [get_connection_scope_of_ok pool db _ hpool true db
      (by unfold deleteUserStmt
          rw [List.filter_eq_self.mpr (fun r hr => by
            simp [bne, habsent r hr])])]

/-- Witness for c10_update_reports_statement_success: on a store whose
single row has id 1, operations targeting the absent id 2 all report
True and change nothing. -/
theorem c10_update_reports_statement_success_witness :
    update_user_did 10
        ⟨[⟨1, "alice", "a@x", [1], none, none, "w", true, 0, 0⟩], 2⟩
        2 "did:sov:x" 5 =
      ⟨.ok true,
        ⟨[⟨1, "alice", "a@x", [1], none, none, "w", true, 0, 0⟩], 2⟩, 10⟩ ∧
    delete_user 10
        ⟨[⟨1, "alice", "a@x", [1], none, none, "w", true, 0, 0⟩], 2⟩ 2 =
      ⟨.ok true,
        ⟨[⟨1, "alice", "a@x", [1], none, none, "w", true, 0, 0⟩], 2⟩, 10⟩ :=
  ⟨(c10_update_reports_statement_success 10
      ⟨[⟨1, "alice", "a@x", [1], none, none, "w", true, 0, 0⟩], 2⟩
      2 "did:sov:x" [9] 5 (by decide) (by decide)).1,
   (c10_update_reports_statement_success 10
      ⟨[⟨1, "alice", "a@x", [1], none, none, "w", true, 0, 0⟩], 2⟩
      2 "did:sov:x" [9] 5 (by decide) (by decide)).2.2⟩

/-! ## The session boundary: /auth/login
(src/agents/holder/app.py, lines 165-211) -/

/-- DatabaseService.get_user_by_username as observed by its callers:
the SELECT ... WHERE username = %s single-row lookup (the surrounding
pool discipline is get_connection_scope, verified separately). -/
def get_user_by_username (db : UsersDb) (username : String) :
    Option UserRow :=
  db.rows.find? (fun r => r.username == username)

/-- The user projection returned to clients: every row field except
hashed_password (the handler strips the sensitive field). -/
structure UserResponse where
  id : Nat
  username : String
  email : String
  full_name : Option String
  did : Option String
  wallet_id : String
  is_active : Bool
  created_at : Nat
  updated_at : Nat
deriving DecidableEq, Repr

def toUserResponse (r : UserRow) : UserResponse :=
  ⟨r.id, r.username, r.email, r.full_name, r.did, r.wallet_id,
    r.is_active, r.created_at, r.updated_at⟩

/-- Outcome of the login handler: an HTTPException with status and
detail, or a bearer token with the sanitized user. -/
inductive LoginResult where
  | httpError (status : Nat) (detail : String)
  | token (tok : JwtToken) (user : UserResponse)
deriving DecidableEq, Repr

/-- The /auth/login handler: look up the user and raise
401 "Invalid username or password" when absent; raise the identical
401 when the password does not verify; raise 403 when the account is
disabled; otherwise issue a token and return the sanitized user. -/
def login (db : UsersDb) (username : String) (password : List Nat)
    (key : String) (now hours : Nat) : LoginResult :=
  match get_user_by_username db username with
  | none => .httpError 401 "Invalid username or password"
  | some user =>
    if !verify_password password user.hashed_password then
      .httpError 401 "Invalid username or password"
    else if !user.is_active then
      .httpError 403 "User account is disabled"
    else
      .token (create_access_token user.id user.username now hours key)
        (toUserResponse user)

/-- C9: an authentication attempt with an unknown username and one
with a known username but non-verifying password produce literally
equal responses — the same 401 with detail "Invalid username or
password" — so the boundary leaks nothing about which check failed. -/
theorem c9_login_indistinguishable (db db2 : UsersDb) (u u2 : String)
    (p p2 : List Nat) (key : String) (now hours : Nat) (user : UserRow)
    (h1 : get_user_by_username db u = none)
    (h2 : get_user_by_username db2 u2 = some user)
    (h3 : verify_password p2 user.hashed_password = false) :
    login db u p key now hours =
      .httpError 401 "Invalid username or password" ∧
    login db2 u2 p2 key now hours = login db u p key now hours := by
  constructor
  · simp [login, h1]
  · simp [login, h1, h2, h3]

/-- Witness for c9_login_indistinguishable: an empty store (unknown
user) versus a store holding bob with an unverifiable stored hash
(wrong password) produce the same response. -/
theorem c9_login_indistinguishable_witness :
    login ⟨[], 1⟩ "alice" [97] "k" 0 24 =
      .httpError 401 "Invalid username or password" ∧
    login ⟨[⟨1, "bob", "b@x", [0], none, none, "w", true, 0, 0⟩], 2⟩
        "bob" [97] "k" 0 24 =
      login ⟨[], 1⟩ "alice" [97] "k" 0 24 :=
  c9_login_indistinguishable ⟨[], 1⟩
    ⟨[⟨1, "bob", "b@x", [0], none, none, "w", true, 0, 0⟩], 2⟩
    "alice" "bob" [97] [97] "k" 0 24
    ⟨1, "bob", "b@x", [0], none, none, "w", true, 0, 0⟩
    rfl rfl (by decide)

end Holder
